import Mathlib

/-!
Verification of the OCR4All AJAX client (`ocr4all_ajax_utils.py`).

Each Python function is shallowly embedded as a Lean function over an
oracle describing the remote server's behaviour (the response to the
k-th HTTP request issued by that function).  The embedding returns the
Python outcome (`Except String _`: `error` models a raised exception)
together with the trace of HTTP requests the function issued, so that
claims about which requests happen, and in what order, are statable.
-/

namespace Ocr4all

/-- An HTTP response as seen by the client: status code and body text. -/
structure Response where
  status : Nat
  text : String
deriving DecidableEq, Repr

/-- `requests.Response.raise_for_status` raises `HTTPError` exactly for
status codes in [400, 600). -/
def isHttpError (status : Nat) : Bool :=
  400 ≤ status && status < 600

/-- Python's whitespace test used by `str.strip()` (ASCII whitespace;
the rarely relevant non-ASCII space code points are elided). -/
def pyIsSpace (c : Char) : Bool :=
  c = ' ' || c = '\t' || c = '\n' || c = '\x0d' || c = '\x0b' || c = '\x0c'

/-- Python `str.strip()`: remove leading and trailing whitespace. -/
def pyStrip (s : String) : String :=
  ⟨((s.data.dropWhile pyIsSpace).reverse.dropWhile pyIsSpace).reverse⟩

/-- Python slicing `s[:n]`: the first `n` characters of `s`. -/
def strTake (s : String) (n : Nat) : String :=
  ⟨s.data.take n⟩

/-! ### `ocr4all_open_project` -/

/-- The GET endpoints `ocr4all_open_project` can hit, in the order the
Python code issues them. -/
inductive OpenStep where
  | root
  | checkDir
  | validate
  | invalidateSession
  | validateProject
deriving DecidableEq, Repr

/-- Embedding of `ocr4all_open_project`.  `env k` is the response to the
k-th HTTP request issued (the preliminary GET to the base URL is request
0; in the failing-validate branch request 3 is the `invalidateSession`
GET, whose response is ignored by the code).  Returns the outcome and
the ordered list of requests issued. -/
def ocr4all_open_project (env : Nat → Response) :
    Except String Unit × List OpenStep :=
  if isHttpError (env 0).status then
    (Except.error "HTTPError", [OpenStep.root])
  else if isHttpError (env 1).status then
    (Except.error "HTTPError", [OpenStep.root, OpenStep.checkDir])
  else if pyStrip (env 1).text ≠ "true" then
    (Except.error ("ocr4all checkDir returned " ++ (env 1).text),
     [OpenStep.root, OpenStep.checkDir])
  else if isHttpError (env 2).status then
    (Except.error "HTTPError",
     [OpenStep.root, OpenStep.checkDir, OpenStep.validate])
  else if pyStrip (env 2).text ≠ "true" then
    (Except.error ("ocr4all validate returned " ++ (env 2).text),
     [OpenStep.root, OpenStep.checkDir, OpenStep.validate,
      OpenStep.invalidateSession])
  else if isHttpError (env 3).status then
    (Except.error "HTTPError",
     [OpenStep.root, OpenStep.checkDir, OpenStep.validate,
      OpenStep.validateProject])
  else if pyStrip (env 3).text ≠ "true" then
    (Except.error ("ocr4all validateProject returned:\n " ++ (env 3).text),
     [OpenStep.root, OpenStep.checkDir, OpenStep.validate,
      OpenStep.validateProject])
  else
    (Except.ok (),
     [OpenStep.root, OpenStep.checkDir, OpenStep.validate,
      OpenStep.validateProject])

/-! ### `ocr4all_threads` -/

/-- Digits of a Python integer literal after the first digit: further
digits, with single underscores allowed between two digits
(`int("1_0") = 10`, `int("1__0")` and `int("1_")` raise). -/
def pyDigitsGo : List Char → Nat → Option Nat
  | [], acc => some acc
  | '_' :: c :: rest, acc =>
      if c.isDigit then pyDigitsGo rest (acc * 10 + (c.toNat - 48)) else none
  | ['_'], _ => none
  | c :: rest, acc =>
      if c.isDigit then pyDigitsGo rest (acc * 10 + (c.toNat - 48)) else none

/-- Python unsigned decimal literal: at least one digit, then
`pyDigitsGo`. -/
def pyNatOfChars : List Char → Option Nat
  | c :: rest => if c.isDigit then pyDigitsGo rest (c.toNat - 48) else none
  | [] => none

/-- Python `int(s)` on an already-stripped string: optional sign then a
decimal literal; `none` models a raised `ValueError`. -/
def pyInt (s : String) : Option Int :=
  match s.data with
  | '+' :: rest => (pyNatOfChars rest).map Int.ofNat
  | '-' :: rest => (pyNatOfChars rest).map (fun n => -(n : Int))
  | cs => (pyNatOfChars cs).map Int.ofNat

/-- Embedding of `ocr4all_threads`: `raise_for_status`, then
`max(1, int(r.text.strip()))` with any parse exception silently mapped
to `1`. -/
def ocr4all_threads (r : Response) : Except String Int :=
  if isHttpError r.status then Except.error "HTTPError"
  else
    match pyInt (pyStrip r.text) with
    | some n => Except.ok (max 1 n)
    | none => Except.ok 1

/-! ### `ocr4all_get_page_ids` -/

/-- JSON values as decoded by `requests.Response.json()` (numbers are
restricted to integers, the only numeric payloads the claims need). -/
inductive Json where
  | null
  | bool (b : Bool)
  | num (n : Int)
  | str (s : String)
  | arr (xs : List Json)
  | obj (kvs : List (String × Json))

mutual

/-- Python `repr` of a decoded JSON value (string escaping elided:
strings are rendered between plain single quotes). -/
def pyRepr : Json → String
  | Json.null => "None"
  | Json.bool true => "True"
  | Json.bool false => "False"
  | Json.num n => toString n
  | Json.str s => "\x27" ++ s ++ "\x27"
  | Json.arr xs => "[" ++ pyReprList xs ++ "]"
  | Json.obj kvs => "\x7b" ++ pyReprObj kvs ++ "\x7d"

/-- Comma-separated `repr`s of list elements. -/
def pyReprList : List Json → String
  | [] => ""
  | [x] => pyRepr x
  | x :: xs => pyRepr x ++ ", " ++ pyReprList xs

/-- Comma-separated `repr`s of dict entries. -/
def pyReprObj : List (String × Json) → String
  | [] => ""
  | [kv] => "\x27" ++ kv.1 ++ "\x27: " ++ pyRepr kv.2
  | kv :: kvs => "\x27" ++ kv.1 ++ "\x27: " ++ pyRepr kv.2 ++ ", " ++ pyReprObj kvs

end

/-- Python `str` of a decoded JSON value: the string itself for
strings, `repr` otherwise. -/
def pyStr : Json → String
  | Json.str s => s
  | v => pyRepr v

/-- Python `type(x)` rendered as in f-string interpolation. -/
def pyTypeName : Json → String
  | Json.null => "<class \x27NoneType\x27>"
  | Json.bool _ => "<class \x27bool\x27>"
  | Json.num _ => "<class \x27int\x27>"
  | Json.str _ => "<class \x27str\x27>"
  | Json.arr _ => "<class \x27list\x27>"
  | Json.obj _ => "<class \x27dict\x27>"

/-- Embedding of `ocr4all_get_page_ids`.  `parsed` is the result of
`r.json()` (`none` models a raised decoding exception), `text` the raw
body used for the error snippet. -/
def ocr4all_get_page_ids (status : Nat) (parsed : Option Json)
    (text : String) : Except String (List String) :=
  if isHttpError status then Except.error "HTTPError"
  else
    match parsed with
    | none =>
        Except.error ("pagelist did not return JSON. head=" ++ strTake text 200)
    | some (Json.arr xs) => Except.ok (xs.map pyStr)
    | some v =>
        Except.error
          ("Unexpected pagelist payload: " ++ pyTypeName v ++ " "
            ++ strTake (pyStr v) 200)

/-! ### `ocr4all_processflow_execute` -/

/-- Embedding of `ocr4all_processflow_execute`: one POST, success iff
the HTTP status is exactly 200 (no `raise_for_status` here). -/
def ocr4all_processflow_execute (r : Response) : Except String Unit :=
  if r.status = 200 then Except.ok ()
  else
    Except.error
      ("processFlow/execute failed: HTTP " ++ toString r.status ++ ": "
        ++ strTake r.text 500)

/-! ### `ocr4all_convert_project_files` -/

/-- Outcome of the conversion POST at the transport level: a response
arrived, the client read-timed out, or some other transport error was
raised. -/
inductive TransportResult where
  | resp (r : Response)
  | readTimeout
  | otherError (e : String)
deriving DecidableEq, Repr

/-- Embedding of `ocr4all_convert_project_files`: on a response,
`raise_for_status` then return the raw body; a `ReadTimeout` is caught
and mapped to `""`; any other transport error propagates. -/
def ocr4all_convert_project_files (res : TransportResult) :
    Except String String :=
  match res with
  | TransportResult.resp r =>
      if isHttpError r.status then Except.error "HTTPError"
      else Except.ok r.text
  | TransportResult.readTimeout => Except.ok ""
  | TransportResult.otherError e => Except.error e

/-! ### `ocr4all_processflow_wait`

`ocr4all_processflow_current` performs one GET and returns the trimmed
body; the loops below take the sequence of its return values as an
oracle `polls : Nat → String` (`polls i` is the trimmed text of the
i-th status poll; claims quantify over runs in which every poll yields
a text, i.e. no HTTP-level error occurred on the poll itself).
-/

/-- Observable events of the wait loop: a status poll (with its trimmed
result), a `logger.info` emission (with the logged status), and a
`time.sleep(1)` of one second. -/
inductive WaitEvent where
  | poll (s : String)
  | log (s : String)
  | sleep
deriving DecidableEq, Repr

/-- How a run of the wait loop ends: normal return, or a raised
`TimeoutError`. -/
inductive WaitOutcome where
  | done
  | timeout
deriving DecidableEq, Repr

/-- Events of one loop iteration up to the idle test: the poll, then
(mirroring `if cur != last: logger.info(...)`) a log exactly when the
status differs from the last seen one. -/
def waitEvs (cur : String) (last : Option String) : List WaitEvent :=
  if some cur = last then [WaitEvent.poll cur]
  else [WaitEvent.poll cur, WaitEvent.log cur]

/-- One unrolling bound of the `while True` loop of
`ocr4all_processflow_wait`.  `polls i` is the i-th poll result,
`elapsed i` the value `time.time() - t0` at the i-th timeout check,
`last` the `last` variable (`none` models Python's initial `None`).
`fuel` bounds the unrolling; a `none` outcome means the loop had not
exited within `fuel` iterations. -/
def waitGo (polls : Nat → String) (elapsed : Nat → Nat) (timeout_s : Nat) :
    Nat → Option String → Nat → Option WaitOutcome × List WaitEvent
  | _, _, 0 => (none, [])
  | i, last, fuel + 1 =>
    if polls i = "" then
      (some WaitOutcome.done, waitEvs (polls i) last)
    else if timeout_s < elapsed i then
      (some WaitOutcome.timeout, waitEvs (polls i) last)
    else
      ((waitGo polls elapsed timeout_s (i + 1) (some (polls i)) fuel).1,
        waitEvs (polls i) last ++ WaitEvent.sleep ::
          (waitGo polls elapsed timeout_s (i + 1) (some (polls i)) fuel).2)

/-- Embedding of `ocr4all_processflow_wait`, starting at poll 0 with
`last = None`. -/
def ocr4all_processflow_wait (polls : Nat → String) (elapsed : Nat → Nat)
    (timeout_s : Nat) (fuel : Nat) : Option WaitOutcome × List WaitEvent :=
  waitGo polls elapsed timeout_s 0 none fuel

/-- Number of poll events in a wait trace. -/
def waitPollCount (tr : List WaitEvent) : Nat :=
  (tr.filter fun e => match e with | WaitEvent.poll _ => true | _ => false).length

/-- Number of log events in a wait trace. -/
def waitLogCount (tr : List WaitEvent) : Nat :=
  (tr.filter fun e => match e with | WaitEvent.log _ => true | _ => false).length

/-- Number of sleep events in a wait trace. -/
def waitSleepCount (tr : List WaitEvent) : Nat :=
  (tr.filter fun e => match e with | WaitEvent.sleep => true | _ => false).length

/-- Checks the logging discipline of a wait trace against the previous
logged status `last`: a poll is immediately followed by a log of the
same status exactly when the status differs from `last`, and log events
occur nowhere else. -/
def logsOnChange : Option String → List WaitEvent → Bool
  | _, [] => true
  | last, WaitEvent.poll s :: WaitEvent.log t :: rest =>
      if some s = last then false
      else if s = t then logsOnChange (some s) rest else false
  | last, WaitEvent.poll s :: rest =>
      if some s = last then logsOnChange (some s) rest else false
  | last, WaitEvent.sleep :: rest => logsOnChange last rest
  | _, WaitEvent.log _ :: _ => false

/-! ### `ocr4all_processflow_execute_json` -/

/-- Observable events of the retrying execute loop: a status poll, a
POST to `processFlow/execute` (with the HTTP status of its response),
and a `time.sleep(retry_sleep_s)`. -/
inductive ExecEvent where
  | poll (s : String)
  | post (status : Nat)
  | sleep
deriving DecidableEq, Repr

/-- The loop body of `ocr4all_processflow_execute_json`.  `polls i` is
the trimmed result of the i-th status poll, `posts p` the HTTP status
of the p-th POST actually issued; `fuel` is the number of remaining
iterations of `for attempt in range(1, retries + 1)`. -/
def execJsonGo (polls : Nat → String) (posts : Nat → Nat) :
    Nat → Nat → Nat → Except String Unit × List ExecEvent
  | _, _, 0 => (Except.error "processFlow/execute failed after retries", [])
  | i, p, fuel + 1 =>
    let cur := polls i
    if cur ≠ "" then
      let rest := execJsonGo polls posts (i + 1) p fuel
      (rest.1, ExecEvent.poll cur :: ExecEvent.sleep :: rest.2)
    else
      let st := posts p
      if st = 200 then (Except.ok (), [ExecEvent.poll cur, ExecEvent.post st])
      else
        let rest := execJsonGo polls posts (i + 1) (p + 1) fuel
        (rest.1,
         ExecEvent.poll cur :: ExecEvent.post st :: ExecEvent.sleep :: rest.2)

/-- Embedding of `ocr4all_processflow_execute_json` with `retries`
iterations available, starting at poll 0 and POST 0. -/
def ocr4all_processflow_execute_json (retries : Nat) (polls : Nat → String)
    (posts : Nat → Nat) : Except String Unit × List ExecEvent :=
  execJsonGo polls posts 0 0 retries

/-- Number of poll events in an execute trace. -/
def execPollCount (tr : List ExecEvent) : Nat :=
  (tr.filter fun e => match e with | ExecEvent.poll _ => true | _ => false).length

/-- Number of POST events in an execute trace. -/
def execPostCount (tr : List ExecEvent) : Nat :=
  (tr.filter fun e => match e with | ExecEvent.post _ => true | _ => false).length

/-- Number of idle (empty-string) poll events in an execute trace. -/
def execIdlePollCount (tr : List ExecEvent) : Nat :=
  (tr.filter fun e => match e with
    | ExecEvent.poll s => s == ""
    | _ => false).length

/-! ## Claim theorems -/

/-- C8: `ocr4all_processflow_execute` succeeds exactly when the POST
response has HTTP status 200; for every other status code (other 2xx
codes included) it raises a generic runtime error whose message carries
the endpoint name `processFlow/execute` and the first 500 characters of
the response body. -/
theorem C8_execute_succeeds_only_on_200 (r : Response) :
    (r.status = 200 → ocr4all_processflow_execute r = Except.ok ()) ∧
    (r.status ≠ 200 →
      ocr4all_processflow_execute r =
        Except.error
          ("processFlow/execute failed: HTTP " ++ toString r.status ++ ": "
            ++ strTake r.text 500)) := by
  unfold ocr4all_processflow_execute
  constructor
  · intro h
    simp [h]
  · intro h
    simp [h]

/-- Witness for C8 at HTTP 200 and at HTTP 204 (a non-200 2xx code). -/
theorem C8_execute_succeeds_only_on_200_witness :
    ocr4all_processflow_execute ⟨200, "ok"⟩ = Except.ok () ∧
    ocr4all_processflow_execute ⟨204, "nope"⟩ =
      Except.error
        ("processFlow/execute failed: HTTP " ++ toString (204 : Nat) ++ ": "
          ++ strTake "nope" 500) :=
  ⟨(C8_execute_succeeds_only_on_200 ⟨200, "ok"⟩).1 rfl,
   (C8_execute_succeeds_only_on_200 ⟨204, "nope"⟩).2 (by decide)⟩

/-- C6: `ocr4all_convert_project_files` returns the raw (untrimmed)
response text for every successful POST, returns the empty string
without raising when a client-side `ReadTimeout` occurs, and tolerates
no other outcome this way: any other transport error propagates and an
HTTP 4xx/5xx status raises via `raise_for_status`. -/
theorem C6_convert_tolerates_only_read_timeout (res : TransportResult) :
    (∀ r : Response, res = TransportResult.resp r →
      isHttpError r.status = false →
      ocr4all_convert_project_files res = Except.ok r.text) ∧
    (res = TransportResult.readTimeout →
      ocr4all_convert_project_files res = Except.ok "") ∧
    (∀ e, res = TransportResult.otherError e →
      ocr4all_convert_project_files res = Except.error e) ∧
    (∀ r : Response, res = TransportResult.resp r →
      isHttpError r.status = true →
      ocr4all_convert_project_files res = Except.error "HTTPError") := by
  refine ⟨?_, ?_, ?_, ?_⟩
  · rintro r rfl h
    simp [ocr4all_convert_project_files, h]
  · rintro rfl
    rfl
  · rintro e rfl
    rfl
  · rintro r rfl h
    simp [ocr4all_convert_project_files, h]

/-- Witness for C6: a successful POST, a read-timeout, another
transport error, and an HTTP 500 response. -/
theorem C6_convert_tolerates_only_read_timeout_witness :
    ocr4all_convert_project_files (TransportResult.resp ⟨200, " body "⟩) =
      Except.ok " body " ∧
    ocr4all_convert_project_files TransportResult.readTimeout =
      Except.ok "" ∧
    ocr4all_convert_project_files (TransportResult.otherError "ConnectionError") =
      Except.error "ConnectionError" ∧
    ocr4all_convert_project_files (TransportResult.resp ⟨500, "oops"⟩) =
      Except.error "HTTPError" :=
  ⟨(C6_convert_tolerates_only_read_timeout
      (TransportResult.resp ⟨200, " body "⟩)).1 ⟨200, " body "⟩ rfl (by decide),
   (C6_convert_tolerates_only_read_timeout TransportResult.readTimeout).2.1 rfl,
   (C6_convert_tolerates_only_read_timeout
      (TransportResult.otherError "ConnectionError")).2.2.1 "ConnectionError" rfl,
   (C6_convert_tolerates_only_read_timeout
      (TransportResult.resp ⟨500, "oops"⟩)).2.2.2 ⟨500, "oops"⟩ rfl (by decide)⟩

/-- C7: `ocr4all_threads` returns the parsed integer from the stripped
response text whenever that text parses as a positive integer, and
returns 1 for every malformed response (empty string, non-numeric
text); the parse failure is silent, never an error. -/
theorem C7_threads_parse_or_one (r : Response)
    (h : isHttpError r.status = false) :
    (∀ n : Int, pyInt (pyStrip r.text) = some n → 1 ≤ n →
      ocr4all_threads r = Except.ok n) ∧
    (pyInt (pyStrip r.text) = none → ocr4all_threads r = Except.ok 1) := by
  unfold ocr4all_threads
  rw [h]
  constructor
  · intro n hp hn
    simp [hp, max_eq_right hn]
  · intro hp
    simp [hp]

/-- Witness for C7: a positive numeric response and a non-numeric
response. -/
theorem C7_threads_parse_or_one_witness :
    ocr4all_threads ⟨200, " 4 "⟩ = Except.ok 4 ∧
    ocr4all_threads ⟨200, "abc"⟩ = Except.ok 1 :=
  ⟨(C7_threads_parse_or_one ⟨200, " 4 "⟩ (by decide)).1 4 (by decide) (by decide),
   (C7_threads_parse_or_one ⟨200, "abc"⟩ (by decide)).2 (by decide)⟩

/-- C9 (implicit): `ocr4all_threads` always returns an integer ≥ 1; a
response parsing to zero or a negative integer is clamped to 1, not
returned as parsed and not treated as an error. -/
theorem C9_threads_at_least_one (r : Response) :
    (∀ n : Int, ocr4all_threads r = Except.ok n → 1 ≤ n) ∧
    (∀ k : Int, pyInt (pyStrip r.text) = some k → k ≤ 0 →
      isHttpError r.status = false → ocr4all_threads r = Except.ok 1) := by
  constructor
  · intro n hn
    unfold ocr4all_threads at hn
    split at hn
    · exact absurd hn (by simp)
    · rcases hp : pyInt (pyStrip r.text) with _ | k
      · rw [hp] at hn
        simp only [Except.ok.injEq] at hn
        omega
      · rw [hp] at hn
        simp only [Except.ok.injEq] at hn
        have := le_max_left 1 k
        omega
  · intro k hk hk0 hs
    unfold ocr4all_threads
    rw [hs, hk]
    have : max 1 k = 1 := max_eq_left (by omega)
    simp [this]

/-- Witness for C9: a response parsing to 0 yields 1 (and 1 ≥ 1). -/
theorem C9_threads_at_least_one_witness :
    ocr4all_threads ⟨200, "0"⟩ = Except.ok 1 ∧ (1 : Int) ≤ 1 :=
  ⟨(C9_threads_at_least_one ⟨200, "0"⟩).2 0 (by decide) (by decide) (by decide),
   (C9_threads_at_least_one ⟨200, "0"⟩).1 1
     ((C9_threads_at_least_one ⟨200, "0"⟩).2 0 (by decide) (by decide) (by decide))⟩

/-- C5: for every HTTP-successful response whose JSON payload is an
array, `ocr4all_get_page_ids` returns exactly the stringified elements
of the array in source order; a payload that is valid JSON but not an
array, or not JSON at all, raises an error carrying a snippet (of the
raw body, resp. of the stringified payload). -/
theorem C5_page_ids_array_or_error (status : Nat) (parsed : Option Json)
    (text : String) (h : isHttpError status = false) :
    (∀ xs, parsed = some (Json.arr xs) →
      ocr4all_get_page_ids status parsed text = Except.ok (xs.map pyStr)) ∧
    (parsed = none →
      ocr4all_get_page_ids status parsed text =
        Except.error ("pagelist did not return JSON. head=" ++ strTake text 200)) ∧
    (∀ v, parsed = some v → (∀ xs, v ≠ Json.arr xs) →
      ocr4all_get_page_ids status parsed text =
        Except.error ("Unexpected pagelist payload: " ++ pyTypeName v ++ " "
          ++ strTake (pyStr v) 200)) := by
  unfold ocr4all_get_page_ids
  rw [h]
  refine ⟨?_, ?_, ?_⟩
  · rintro xs rfl
    simp
  · rintro rfl
    simp
  · rintro v rfl hv
    cases v with
    | null => simp
    | bool b => simp
    | num n => simp
    | str s => simp
    | arr xs => exact absurd rfl (hv xs)
    | obj kvs => simp

/-- Witness for C5: an array payload with mixed element types, a
non-JSON body, and a JSON object payload. -/
theorem C5_page_ids_array_or_error_witness :
    ocr4all_get_page_ids 200 (some (Json.arr
        [Json.str "0001", Json.num 2, Json.null])) "[...]" =
      Except.ok ["0001", "2", "None"] ∧
    ocr4all_get_page_ids 200 none "<html>" =
      Except.error ("pagelist did not return JSON. head=" ++ strTake "<html>" 200) ∧
    ocr4all_get_page_ids 200 (some (Json.obj [])) "\x7b\x7d" =
      Except.error ("Unexpected pagelist payload: " ++ pyTypeName (Json.obj [])
        ++ " " ++ strTake (pyStr (Json.obj [])) 200) :=
  ⟨(C5_page_ids_array_or_error 200
      (some (Json.arr [Json.str "0001", Json.num 2, Json.null])) "[...]"
      (by decide)).1 [Json.str "0001", Json.num 2, Json.null] rfl,
   (C5_page_ids_array_or_error 200 none "<html>" (by decide)).2.1 rfl,
   (C5_page_ids_array_or_error 200 (some (Json.obj [])) "\x7b\x7d"
      (by decide)).2.2 (Json.obj []) rfl (fun xs h => Json.noConfusion h)⟩

/-- C1: under HTTP-clean responses (no 4xx/5xx, which C10 and the
spec's error taxonomy cover separately), `ocr4all_open_project`
succeeds iff the three step responses (requests 1, 2, 3) all strip to
`"true"`; a non-`"true"` checkDir stops after two GETs, a non-`"true"`
validate issues exactly one `invalidateSession` GET and stops, and a
non-`"true"` validateProject fails after all three steps were issued. -/
theorem C1_open_project_iff_three_true (env : Nat → Response)
    (hok : ∀ i, isHttpError (env i).status = false) :
    ((ocr4all_open_project env).1 = Except.ok () ↔
      (pyStrip (env 1).text = "true" ∧ pyStrip (env 2).text = "true" ∧
        pyStrip (env 3).text = "true")) ∧
    (pyStrip (env 1).text ≠ "true" →
      (∃ e, (ocr4all_open_project env).1 = Except.error e) ∧
      (ocr4all_open_project env).2 = [OpenStep.root, OpenStep.checkDir]) ∧
    (pyStrip (env 1).text = "true" → pyStrip (env 2).text ≠ "true" →
      (∃ e, (ocr4all_open_project env).1 = Except.error e) ∧
      (ocr4all_open_project env).2 =
        [OpenStep.root, OpenStep.checkDir, OpenStep.validate,
         OpenStep.invalidateSession]) ∧
    (pyStrip (env 1).text = "true" → pyStrip (env 2).text = "true" →
      pyStrip (env 3).text ≠ "true" →
      (∃ e, (ocr4all_open_project env).1 = Except.error e) ∧
      (ocr4all_open_project env).2 =
        [OpenStep.root, OpenStep.checkDir, OpenStep.validate,
         OpenStep.validateProject]) := by
  unfold ocr4all_open_project
  rw [hok 0, hok 1, hok 2, hok 3]
  by_cases t1 : pyStrip (env 1).text = "true" <;>
    by_cases t2 : pyStrip (env 2).text = "true" <;>
      by_cases t3 : pyStrip (env 3).text = "true" <;>
        simp [t1, t2, t3]

/-- Server behaviour where every step answers HTTP 200 `"true"`. -/
def envAllTrue : Nat → Response := fun _ => ⟨200, "true"⟩

/-- Server behaviour where the checkDir step answers `"false"`. -/
def envBadCheckDir : Nat → Response :=
  fun i => ⟨200, if i = 1 then "false" else "true"⟩

/-- Server behaviour where the validate step answers `"false"`. -/
def envBadValidate : Nat → Response :=
  fun i => ⟨200, if i = 2 then "false" else "true"⟩

/-- Server behaviour where the validateProject step answers an error
page. -/
def envBadValidateProject : Nat → Response :=
  fun i => ⟨200, if i = 3 then "<html>err</html>" else "true"⟩

/-- Witness for C1: the all-`"true"` run succeeds, and each failing
step stops with exactly the traced requests. -/
theorem C1_open_project_iff_three_true_witness :
    (ocr4all_open_project envAllTrue).1 = Except.ok () ∧
    (ocr4all_open_project envBadCheckDir).2 =
      [OpenStep.root, OpenStep.checkDir] ∧
    (ocr4all_open_project envBadValidate).2 =
      [OpenStep.root, OpenStep.checkDir, OpenStep.validate,
       OpenStep.invalidateSession] ∧
    (ocr4all_open_project envBadValidateProject).2 =
      [OpenStep.root, OpenStep.checkDir, OpenStep.validate,
       OpenStep.validateProject] :=
  ⟨(C1_open_project_iff_three_true envAllTrue (fun _ => rfl)).1.mpr
      ⟨by decide, by decide, by decide⟩,
   ((C1_open_project_iff_three_true envBadCheckDir (fun _ => rfl)).2.1
      (by decide)).2,
   ((C1_open_project_iff_three_true envBadValidate (fun _ => rfl)).2.2.1
      (by decide) (by decide)).2,
   ((C1_open_project_iff_three_true envBadValidateProject (fun _ => rfl)).2.2.2
      (by decide) (by decide) (by decide)).2⟩

/-- Server behaviour whose preliminary (root) response is HTTP 304, a
non-2xx status that `raise_for_status` does not raise on, with every
later step HTTP 200 `"true"`. -/
def envPrelim304 : Nat → Response :=
  fun i => if i = 0 then ⟨304, "x"⟩ else ⟨200, "true"⟩

/-- C10 counterexample: the preliminary response is 304 — non-2xx — yet
`ocr4all_open_project` does not raise on it: the run proceeds through
all four GETs and succeeds, refuting "raises on a non-2xx response to
that preliminary request" (Python's `raise_for_status` raises only for
4xx/5xx). -/
theorem C10_counterexample_304_preliminary :
    (envPrelim304 0).status = 304 ∧
    ¬(200 ≤ (envPrelim304 0).status ∧ (envPrelim304 0).status < 300) ∧
    (ocr4all_open_project envPrelim304).1 = Except.ok () ∧
    (ocr4all_open_project envPrelim304).2 =
      [OpenStep.root, OpenStep.checkDir, OpenStep.validate,
       OpenStep.validateProject] := by
  refine ⟨rfl, by decide, rfl, rfl⟩

/-- C10 (amended): `ocr4all_open_project` issues a preliminary GET to
the base URL root before any of the three described steps (the trace
always starts with it), raises on a 4xx/5xx response to that
preliminary request before checkDir is ever issued, and every
successful run performs four GET requests, not three. -/
theorem C10_amended_preliminary_get (env : Nat → Response) :
    (∃ tail, (ocr4all_open_project env).2 = OpenStep.root :: tail) ∧
    (isHttpError (env 0).status = true →
      (ocr4all_open_project env).1 = Except.error "HTTPError" ∧
      (ocr4all_open_project env).2 = [OpenStep.root]) ∧
    ((ocr4all_open_project env).1 = Except.ok () →
      (ocr4all_open_project env).2 =
        [OpenStep.root, OpenStep.checkDir, OpenStep.validate,
         OpenStep.validateProject]) := by
  unfold ocr4all_open_project
  split_ifs with h1 h2 h3 h4 h5 h6 h7 <;> simp [h1]

/-- Server behaviour whose preliminary response is HTTP 500. -/
def envPrelim500 : Nat → Response := fun _ => ⟨500, "err"⟩

/-- Witness for C10 (amended): a 500 preliminary response raises with
only the root GET issued, and the all-`"true"` run issues four GETs. -/
theorem C10_amended_preliminary_get_witness :
    (ocr4all_open_project envPrelim500).1 = Except.error "HTTPError" ∧
    (ocr4all_open_project envPrelim500).2 = [OpenStep.root] ∧
    (ocr4all_open_project envAllTrue).2 =
      [OpenStep.root, OpenStep.checkDir, OpenStep.validate,
       OpenStep.validateProject] :=
  ⟨((C10_amended_preliminary_get envPrelim500).2.1 rfl).1,
   ((C10_amended_preliminary_get envPrelim500).2.1 rfl).2,
   (C10_amended_preliminary_get envAllTrue).2.2 rfl⟩

/-! ## Lemmas about the retrying execute loop -/

/-- When every status poll reports busy, each loop iteration polls once,
issues no POST, and the loop exhausts its fuel and raises. -/
theorem execJsonGo_allBusy (polls : Nat → String) (posts : Nat → Nat)
    (hbusy : ∀ j, polls j ≠ "") :
    ∀ fuel i p,
      (execJsonGo polls posts i p fuel).1 =
        Except.error "processFlow/execute failed after retries" ∧
      execPostCount (execJsonGo polls posts i p fuel).2 = 0 ∧
      execPollCount (execJsonGo polls posts i p fuel).2 = fuel := by
  intro fuel
  induction fuel with
  | zero => exact fun i p => ⟨rfl, rfl, rfl⟩
  | succ f ih =>
    intro i p
    rw [execJsonGo]
    simp only [hbusy i, ne_eq, not_false_eq_true, if_pos]
    obtain ⟨h1, h2, h3⟩ := ih (i + 1) p
    refine ⟨h1, ?_, ?_⟩
    · simp [execPostCount, h2.symm ▸ h2]
      simpa [execPostCount] using h2
    · simpa [execPollCount] using h3

/-- Every run polls at most `fuel` times, a run that raises the
retries-exhausted error polled exactly `fuel` times, and exactly one
POST is issued per idle poll. -/
theorem execJsonGo_counts (polls : Nat → String) (posts : Nat → Nat) :
    ∀ fuel i p,
      execPollCount (execJsonGo polls posts i p fuel).2 ≤ fuel ∧
      (∀ e, (execJsonGo polls posts i p fuel).1 = Except.error e →
        execPollCount (execJsonGo polls posts i p fuel).2 = fuel) ∧
      execPostCount (execJsonGo polls posts i p fuel).2 =
        execIdlePollCount (execJsonGo polls posts i p fuel).2 := by
  intro fuel
  induction fuel with
  | zero => exact fun i p => ⟨Nat.le_refl 0, fun e _ => rfl, rfl⟩
  | succ f ih =>
    intro i p
    rw [execJsonGo]
    by_cases hb : polls i = ""
    · simp only [hb, ne_eq, not_true_eq_false, if_neg, not_false_eq_true]
      by_cases h200 : posts p = 200
      · simp [h200, execPollCount, execPostCount, execIdlePollCount]
      · obtain ⟨h1, h2, h3⟩ := ih (i + 1) (p + 1)
        simp only [h200, if_neg, ite_false]
        refine ⟨?_, ?_, ?_⟩
        · simp only [execPollCount, List.filter, List.length_cons] at h1 ⊢
          simpa [execPollCount] using Nat.succ_le_succ h1
        · intro e he
          simp only [execPollCount, List.filter] at h2 ⊢
          simpa [execPollCount] using h2 e he
        · simpa [execPostCount, execIdlePollCount] using h3
    · simp only [hb, ne_eq, not_false_eq_true, if_pos]
      obtain ⟨h1, h2, h3⟩ := ih (i + 1) p
      refine ⟨?_, ?_, ?_⟩
      · simpa [execPollCount] using Nat.succ_le_succ h1
      · intro e he
        simpa [execPollCount] using h2 e he
      · simpa [execPostCount, execIdlePollCount, hb] using h3

/-- When the first idle poll is poll number `N` (0-indexed) and enough
fuel remains, the trace is `N` busy polls (no POST among them) followed
immediately by the idle poll and a POST; if that POST returns HTTP 200
the run succeeds and ends right there. -/
theorem execJsonGo_firstIdle (polls : Nat → String) (posts : Nat → Nat) :
    ∀ N i p fuel, (∀ j, j < N → polls (i + j) ≠ "") → polls (i + N) = "" →
      N < fuel →
      ∃ pre tail,
        (execJsonGo polls posts i p fuel).2 =
          pre ++ ExecEvent.poll "" :: ExecEvent.post (posts p) :: tail ∧
        execPostCount pre = 0 ∧ execPollCount pre = N ∧
        (posts p = 200 →
          (execJsonGo polls posts i p fuel).1 = Except.ok () ∧ tail = []) := by
  intro N
  induction N with
  | zero =>
    intro i p fuel hbusy hidle hfuel
    obtain ⟨f, rfl⟩ : ∃ f, fuel = f + 1 := ⟨fuel - 1, by omega⟩
    have h0 : polls i = "" := by simpa using hidle
    rw [execJsonGo]
    simp only [h0, ne_eq, not_true_eq_false, if_neg, not_false_eq_true]
    by_cases h200 : posts p = 200
    · exact ⟨[], [], by simp [h200], rfl, rfl,
        fun _ => ⟨by simp [h200], rfl⟩⟩
    · refine ⟨[], ExecEvent.sleep :: (execJsonGo polls posts (i + 1) (p + 1) f).2,
        by simp [h200], rfl, rfl, fun h => absurd h h200⟩
  | succ N ihN =>
    intro i p fuel hbusy hidle hfuel
    obtain ⟨f, rfl⟩ : ∃ f, fuel = f + 1 := ⟨fuel - 1, by omega⟩
    have h0 : polls i ≠ "" := by
      have := hbusy 0 (by omega)
      simpa using this
    have hbusy' : ∀ j, j < N → polls (i + 1 + j) ≠ "" := by
      intro j hj
      have := hbusy (j + 1) (by omega)
      have heq : i + (j + 1) = i + 1 + j := by omega
      rwa [heq] at this
    have hidle' : polls (i + 1 + N) = "" := by
      have heq : i + (N + 1) = i + 1 + N := by omega
      rwa [heq] at hidle
    obtain ⟨pre, tail, htr, hpre, hpoll, h200⟩ :=
      ihN (i + 1) p f hbusy' hidle' (by omega)
    refine ⟨ExecEvent.poll (polls i) :: ExecEvent.sleep :: pre, tail, ?_, ?_, ?_, ?_⟩
    · rw [execJsonGo]
      simp only [h0, ne_eq, not_false_eq_true, if_pos]
      simp [htr]
    · simpa [execPostCount] using hpre
    · simpa [execPollCount] using hpoll
    · intro h
      obtain ⟨hres, htail⟩ := h200 h
      constructor
      · rw [execJsonGo]
        simp only [h0, ne_eq, not_false_eq_true, if_pos]
        exact hres
      · exact htail

/-- C2 counterexample behaviours: the first poll is busy, everything
afterwards is idle, and every POST would succeed. -/
def pollsBusyFirst : Nat → String := fun i => if i = 0 then "busy" else ""

/-- POST oracle that always answers HTTP 200. -/
def postsAlways200 : Nat → Nat := fun _ => 200

/-- C2 counterexample: with `retries = 1`, a single busy poll followed
by an idle server and always-successful POSTs, the run raises with zero
POSTs issued — the busy poll consumed the only attempt, so busy polls
do reduce the number of POST opportunities.  With `retries = 2` the
same behaviour succeeds, confirming one extra attempt was all that was
missing. -/
theorem C2_counterexample_busy_consumes_attempt :
    (ocr4all_processflow_execute_json 1 pollsBusyFirst postsAlways200).1 =
      Except.error "processFlow/execute failed after retries" ∧
    execPostCount
      (ocr4all_processflow_execute_json 1 pollsBusyFirst postsAlways200).2 = 0 ∧
    (ocr4all_processflow_execute_json 2 pollsBusyFirst postsAlways200).1 =
      Except.ok () :=
  ⟨rfl, rfl, rfl⟩

/-- C2 (amended): a busy poll skips that attempt's POST but still
consumes one of the `retries` loop iterations: every run polls at most
`retries` times, a run that raises the retries-exhausted error polled
exactly `retries` times (busy polls included), and exactly one POST is
issued per idle poll. -/
theorem C2_amended_busy_poll_consumes_attempt (retries : Nat)
    (polls : Nat → String) (posts : Nat → Nat) :
    execPollCount
      (ocr4all_processflow_execute_json retries polls posts).2 ≤ retries ∧
    (∀ e, (ocr4all_processflow_execute_json retries polls posts).1 =
        Except.error e →
      execPollCount
        (ocr4all_processflow_execute_json retries polls posts).2 = retries) ∧
    execPostCount (ocr4all_processflow_execute_json retries polls posts).2 =
      execIdlePollCount
        (ocr4all_processflow_execute_json retries polls posts).2 :=
  execJsonGo_counts polls posts retries 0 0

/-- Witness for C2 (amended) on the busy-then-idle behaviour with
`retries = 1`: the raising run polled exactly once and its 0 POSTs
match its 0 idle polls. -/
theorem C2_amended_busy_poll_consumes_attempt_witness :
    execPollCount
      (ocr4all_processflow_execute_json 1 pollsBusyFirst postsAlways200).2 = 1 ∧
    execPostCount
      (ocr4all_processflow_execute_json 1 pollsBusyFirst postsAlways200).2 =
      execIdlePollCount
        (ocr4all_processflow_execute_json 1 pollsBusyFirst postsAlways200).2 :=
  ⟨(C2_amended_busy_poll_consumes_attempt 1 pollsBusyFirst postsAlways200).2.1
      "processFlow/execute failed after retries" rfl,
   (C2_amended_busy_poll_consumes_attempt 1 pollsBusyFirst postsAlways200).2.2⟩

/-- C3 counterexample behaviours: the server is always idle and every
POST fails with HTTP 500. -/
def pollsAlwaysIdle : Nat → String := fun _ => ""

/-- POST oracle that always answers HTTP 500. -/
def postsAlways500 : Nat → Nat := fun _ => 500

/-- C3 counterexample: a run whose first idle poll is the first poll
(`N = 1`) but in which two POSTs are issued: the first POST fails with
HTTP 500, the next iteration polls idle again and POSTs again, so
"exactly one POST is issued after that poll" fails as stated. -/
theorem C3_counterexample_two_posts_after_first_idle :
    pollsAlwaysIdle 0 = "" ∧
    execPostCount
      (ocr4all_processflow_execute_json 2 pollsAlwaysIdle postsAlways500).2 = 2 ∧
    (ocr4all_processflow_execute_json 2 pollsAlwaysIdle postsAlways500).1 =
      Except.error "processFlow/execute failed after retries" :=
  ⟨rfl, rfl, rfl⟩

/-- C3 (amended): if every status poll reports busy the function never
issues the POST and exhausts its retries and raises; and in every run
whose first idle poll is poll `N` (0-indexed) with `N < retries`, the
busy polls before it issue no POST and a single POST is issued
immediately after that idle poll — it is the only POST of the whole run
provided it returns HTTP 200 (a non-200 POST leads to further POSTs on
later idle polls). -/
theorem C3_amended_busy_never_posts_idle_posts_once (retries N : Nat)
    (polls : Nat → String) (posts : Nat → Nat) :
    ((∀ i, polls i ≠ "") →
      (ocr4all_processflow_execute_json retries polls posts).1 =
        Except.error "processFlow/execute failed after retries" ∧
      execPostCount
        (ocr4all_processflow_execute_json retries polls posts).2 = 0) ∧
    ((∀ j, j < N → polls j ≠ "") → polls N = "" → N < retries →
      ∃ pre tail,
        (ocr4all_processflow_execute_json retries polls posts).2 =
          pre ++ ExecEvent.poll "" :: ExecEvent.post (posts 0) :: tail ∧
        execPostCount pre = 0 ∧ execPollCount pre = N ∧
        (posts 0 = 200 →
          (ocr4all_processflow_execute_json retries polls posts).1 =
            Except.ok () ∧
          execPostCount
            (ocr4all_processflow_execute_json retries polls posts).2 = 1)) := by
  constructor
  · intro hbusy
    obtain ⟨h1, h2, _⟩ := execJsonGo_allBusy polls posts hbusy retries 0 0
    exact ⟨h1, h2⟩
  · intro hbusy hidle hN
    obtain ⟨pre, tail, htr, hpre, hpoll, h200⟩ :=
      execJsonGo_firstIdle polls posts N 0 0 retries
        (by intro j hj; simpa using hbusy j hj) (by simpa using hidle) hN
    refine ⟨pre, tail, htr, hpre, hpoll, ?_⟩
    intro h
    obtain ⟨hres, htail⟩ := h200 h
    refine ⟨hres, ?_⟩
    show execPostCount (execJsonGo polls posts 0 0 retries).2 = 1
    rw [htr, htail]
    simp [execPostCount, List.filter_append, hpre]
    simpa [execPostCount] using hpre

/-- All-busy poll oracle. -/
def pollsAlwaysBusy : Nat → String := fun _ => "busy"

/-- Witness for C3 (amended): the always-busy run with 3 retries raises
with no POST, and the busy-then-idle run with 2 retries (first idle
poll is poll 1) succeeds with exactly one POST. -/
theorem C3_amended_busy_never_posts_idle_posts_once_witness :
    ((ocr4all_processflow_execute_json 3 pollsAlwaysBusy postsAlways200).1 =
      Except.error "processFlow/execute failed after retries" ∧
    execPostCount
      (ocr4all_processflow_execute_json 3 pollsAlwaysBusy postsAlways200).2 = 0) ∧
    ((ocr4all_processflow_execute_json 2 pollsBusyFirst postsAlways200).1 =
      Except.ok () ∧
    execPostCount
      (ocr4all_processflow_execute_json 2 pollsBusyFirst postsAlways200).2 = 1) := by
  constructor
  · exact (C3_amended_busy_never_posts_idle_posts_once 3 0 pollsAlwaysBusy
      postsAlways200).1 (fun i => by simp [pollsAlwaysBusy])
  · obtain ⟨pre, tail, htr, hpre, hpoll, h200⟩ :=
      (C3_amended_busy_never_posts_idle_posts_once 2 1 pollsBusyFirst
        postsAlways200).2 (by decide) rfl (by omega)
    exact h200 rfl

/-! ## Lemmas about the wait loop -/

/-- A `waitEvs` block contains exactly one poll event. -/
theorem waitEvs_pollCount (c : String) (l : Option String) :
    waitPollCount (waitEvs c l) = 1 := by
  unfold waitEvs
  split <;> rfl

/-- A `waitEvs` block contains no sleep event. -/
theorem waitEvs_sleepCount (c : String) (l : Option String) :
    waitSleepCount (waitEvs c l) = 0 := by
  unfold waitEvs
  split <;> rfl

/-- Poll counting distributes over trace concatenation. -/
theorem waitPollCount_append (a b : List WaitEvent) :
    waitPollCount (a ++ b) = waitPollCount a + waitPollCount b := by
  simp [waitPollCount, List.filter_append]

/-- Sleep counting distributes over trace concatenation. -/
theorem waitSleepCount_append (a b : List WaitEvent) :
    waitSleepCount (a ++ b) = waitSleepCount a + waitSleepCount b := by
  simp [waitSleepCount, List.filter_append]

/-- A leading sleep is invisible to the poll count. -/
theorem waitPollCount_sleep_cons (l : List WaitEvent) :
    waitPollCount (WaitEvent.sleep :: l) = waitPollCount l := by
  simp [waitPollCount]

/-- A leading sleep adds one to the sleep count. -/
theorem waitSleepCount_sleep_cons (l : List WaitEvent) :
    waitSleepCount (WaitEvent.sleep :: l) = waitSleepCount l + 1 := by
  simp [waitSleepCount]

/-- A lone unchanged-status poll satisfies the logging discipline. -/
theorem logsOnChange_poll_same (s : String) (last : Option String)
    (h : some s = last) :
    logsOnChange last [WaitEvent.poll s] = true := by
  simp [logsOnChange, h]

/-- A lone changed-status poll followed by its log satisfies the
logging discipline. -/
theorem logsOnChange_poll_new (s : String) (last : Option String)
    (h : ¬ some s = last) :
    logsOnChange last [WaitEvent.poll s, WaitEvent.log s] = true := by
  simp [logsOnChange, h]

/-- Unfolding the logging discipline past an unchanged-status poll and
the following sleep. -/
theorem logsOnChange_poll_same_sleep (s : String) (last : Option String)
    (rest : List WaitEvent) (h : some s = last) :
    logsOnChange last (WaitEvent.poll s :: WaitEvent.sleep :: rest) =
      logsOnChange (some s) rest := by
  simp [logsOnChange, h]

/-- Unfolding the logging discipline past a changed-status poll, its
log, and the following sleep. -/
theorem logsOnChange_poll_new_sleep (s : String) (last : Option String)
    (rest : List WaitEvent) (h : ¬ some s = last) :
    logsOnChange last
      (WaitEvent.poll s :: WaitEvent.log s :: WaitEvent.sleep :: rest) =
      logsOnChange (some s) rest := by
  simp [logsOnChange, h]

/-- The wait loop obeys the logging discipline for any poll behaviour,
any fuel and any starting point: a log happens right after a poll
exactly when the polled status differs from the last logged one. -/
theorem waitGo_logsOnChange (polls : Nat → String) (elapsed : Nat → Nat)
    (timeout_s : Nat) :
    ∀ fuel i last,
      logsOnChange last (waitGo polls elapsed timeout_s i last fuel).2 = true := by
  intro fuel
  induction fuel with
  | zero => intro i last; rfl
  | succ f ih =>
    intro i last
    rw [waitGo]
    by_cases h0 : polls i = ""
    · rw [if_pos h0]
      show logsOnChange last (waitEvs (polls i) last) = true
      unfold waitEvs
      by_cases hc : some (polls i) = last
      · rw [if_pos hc]
        exact logsOnChange_poll_same _ _ hc
      · rw [if_neg hc]
        exact logsOnChange_poll_new _ _ hc
    · rw [if_neg h0]
      by_cases ht : timeout_s < elapsed i
      · rw [if_pos ht]
        show logsOnChange last (waitEvs (polls i) last) = true
        unfold waitEvs
        by_cases hc : some (polls i) = last
        · rw [if_pos hc]
          exact logsOnChange_poll_same _ _ hc
        · rw [if_neg hc]
          exact logsOnChange_poll_new _ _ hc
      · rw [if_neg ht]
        show logsOnChange last (waitEvs (polls i) last ++ WaitEvent.sleep ::
          (waitGo polls elapsed timeout_s (i + 1) (some (polls i)) f).2) = true
        unfold waitEvs
        by_cases hc : some (polls i) = last
        · rw [if_pos hc, List.singleton_append,
            logsOnChange_poll_same_sleep _ _ _ hc]
          exact ih (i + 1) (some (polls i))
        · rw [if_neg hc, List.cons_append, List.singleton_append,
            logsOnChange_poll_new_sleep _ _ _ hc]
          exact ih (i + 1) (some (polls i))

/-- If the polls starting at `i` are busy for `k` steps with the
timeout budget not yet exceeded at each of those checks, and poll
`i + k` is idle, the wait loop returns normally after `k + 1` polls and
`k` one-second sleeps (whatever the elapsed time at the idle poll). -/
theorem waitGo_done_aux (polls : Nat → String) (elapsed : Nat → Nat)
    (timeout_s : Nat) :
    ∀ k i last fuel, (∀ j, j < k → polls (i + j) ≠ "") → polls (i + k) = "" →
      (∀ j, j < k → elapsed (i + j) ≤ timeout_s) → k < fuel →
      (waitGo polls elapsed timeout_s i last fuel).1 = some WaitOutcome.done ∧
      waitPollCount (waitGo polls elapsed timeout_s i last fuel).2 = k + 1 ∧
      waitSleepCount (waitGo polls elapsed timeout_s i last fuel).2 = k := by
  intro k
  induction k with
  | zero =>
    intro i last fuel hbusy hidle helaps hfuel
    obtain ⟨f, rfl⟩ : ∃ f, fuel = f + 1 := ⟨fuel - 1, by omega⟩
    have h0 : polls i = "" := by simpa using hidle
    rw [waitGo, if_pos h0]
    exact ⟨rfl, waitEvs_pollCount _ _, waitEvs_sleepCount _ _⟩
  | succ k ih =>
    intro i last fuel hbusy hidle helaps hfuel
    obtain ⟨f, rfl⟩ : ∃ f, fuel = f + 1 := ⟨fuel - 1, by omega⟩
    have h0 : polls i ≠ "" := by
      have := hbusy 0 (by omega)
      simpa using this
    have he : ¬ timeout_s < elapsed i := by
      have := helaps 0 (by omega)
      simp only [Nat.add_zero] at this
      omega
    have hbusy2 : ∀ j, j < k → polls (i + 1 + j) ≠ "" := by
      intro j hj
      have := hbusy (j + 1) (by omega)
      have heq : i + (j + 1) = i + 1 + j := by omega
      rwa [heq] at this
    have hidle2 : polls (i + 1 + k) = "" := by
      have heq : i + (k + 1) = i + 1 + k := by omega
      rwa [heq] at hidle
    have helaps2 : ∀ j, j < k → elapsed (i + 1 + j) ≤ timeout_s := by
      intro j hj
      have := helaps (j + 1) (by omega)
      have heq : i + (j + 1) = i + 1 + j := by omega
      rwa [heq] at this
    obtain ⟨h1, h2, h3⟩ :=
      ih (i + 1) (some (polls i)) f hbusy2 hidle2 helaps2 (by omega)
    rw [waitGo, if_neg h0, if_neg he]
    refine ⟨h1, ?_, ?_⟩
    · show waitPollCount (waitEvs (polls i) last ++ WaitEvent.sleep ::
        (waitGo polls elapsed timeout_s (i + 1) (some (polls i)) f).2) = k + 1 + 1
      rw [waitPollCount_append, waitEvs_pollCount, waitPollCount_sleep_cons, h2]
      omega
    · show waitSleepCount (waitEvs (polls i) last ++ WaitEvent.sleep ::
        (waitGo polls elapsed timeout_s (i + 1) (some (polls i)) f).2) = k + 1
      rw [waitSleepCount_append, waitEvs_sleepCount, waitSleepCount_sleep_cons, h3]
      omega

/-- If the polls starting at `i` are busy for `k + 1` steps, the budget
is not exceeded at the first `k` checks but is exceeded at check
`i + k`, the wait loop raises `TimeoutError` after `k + 1` polls and
`k` sleeps. -/
theorem waitGo_timeout_aux (polls : Nat → String) (elapsed : Nat → Nat)
    (timeout_s : Nat) :
    ∀ k i last fuel, (∀ j, j ≤ k → polls (i + j) ≠ "") →
      (∀ j, j < k → elapsed (i + j) ≤ timeout_s) →
      timeout_s < elapsed (i + k) → k < fuel →
      (waitGo polls elapsed timeout_s i last fuel).1 = some WaitOutcome.timeout ∧
      waitPollCount (waitGo polls elapsed timeout_s i last fuel).2 = k + 1 ∧
      waitSleepCount (waitGo polls elapsed timeout_s i last fuel).2 = k := by
  intro k
  induction k with
  | zero =>
    intro i last fuel hbusy helaps hexc hfuel
    obtain ⟨f, rfl⟩ : ∃ f, fuel = f + 1 := ⟨fuel - 1, by omega⟩
    have h0 : polls i ≠ "" := by
      have := hbusy 0 (by omega)
      simpa using this
    have he : timeout_s < elapsed i := by simpa using hexc
    rw [waitGo, if_neg h0, if_pos he]
    exact ⟨rfl, waitEvs_pollCount _ _, waitEvs_sleepCount _ _⟩
  | succ k ih =>
    intro i last fuel hbusy helaps hexc hfuel
    obtain ⟨f, rfl⟩ : ∃ f, fuel = f + 1 := ⟨fuel - 1, by omega⟩
    have h0 : polls i ≠ "" := by
      have := hbusy 0 (by omega)
      simpa using this
    have he : ¬ timeout_s < elapsed i := by
      have := helaps 0 (by omega)
      simp only [Nat.add_zero] at this
      omega
    have hbusy2 : ∀ j, j ≤ k → polls (i + 1 + j) ≠ "" := by
      intro j hj
      have := hbusy (j + 1) (by omega)
      have heq : i + (j + 1) = i + 1 + j := by omega
      rwa [heq] at this
    have helaps2 : ∀ j, j < k → elapsed (i + 1 + j) ≤ timeout_s := by
      intro j hj
      have := helaps (j + 1) (by omega)
      have heq : i + (j + 1) = i + 1 + j := by omega
      rwa [heq] at this
    have hexc2 : timeout_s < elapsed (i + 1 + k) := by
      have heq : i + (k + 1) = i + 1 + k := by omega
      rwa [heq] at hexc
    obtain ⟨h1, h2, h3⟩ :=
      ih (i + 1) (some (polls i)) f hbusy2 helaps2 hexc2 (by omega)
    rw [waitGo, if_neg h0, if_neg he]
    refine ⟨h1, ?_, ?_⟩
    · show waitPollCount (waitEvs (polls i) last ++ WaitEvent.sleep ::
        (waitGo polls elapsed timeout_s (i + 1) (some (polls i)) f).2) = k + 1 + 1
      rw [waitPollCount_append, waitEvs_pollCount, waitPollCount_sleep_cons, h2]
      omega
    · show waitSleepCount (waitEvs (polls i) last ++ WaitEvent.sleep ::
        (waitGo polls elapsed timeout_s (i + 1) (some (polls i)) f).2) = k + 1
      rw [waitSleepCount_append, waitEvs_sleepCount, waitSleepCount_sleep_cons, h3]
      omega

/-- C4: `ocr4all_processflow_wait` returns normally as soon as a poll
returns the empty string — the iteration checks idleness before the
budget, so nothing constrains the elapsed time at the idle poll itself,
which covers a poll made after the budget is already exceeded — and
raises `TimeoutError` when the elapsed time exceeds the limit while
every poll so far was non-empty.  In both runs `k + 1` polls and `k`
one-second sleeps happen (one sleep between consecutive polls), and in
every run logs occur exactly at status changes. -/
theorem C4_wait_idle_or_timeout (polls : Nat → String) (elapsed : Nat → Nat)
    (timeout_s k fuel : Nat) :
    ((∀ j, j < k → polls j ≠ "") → polls k = "" →
      (∀ j, j < k → elapsed j ≤ timeout_s) → k < fuel →
      (ocr4all_processflow_wait polls elapsed timeout_s fuel).1 =
        some WaitOutcome.done ∧
      waitPollCount (ocr4all_processflow_wait polls elapsed timeout_s fuel).2 =
        k + 1 ∧
      waitSleepCount (ocr4all_processflow_wait polls elapsed timeout_s fuel).2 =
        k) ∧
    ((∀ j, j ≤ k → polls j ≠ "") → (∀ j, j < k → elapsed j ≤ timeout_s) →
      timeout_s < elapsed k → k < fuel →
      (ocr4all_processflow_wait polls elapsed timeout_s fuel).1 =
        some WaitOutcome.timeout ∧
      waitPollCount (ocr4all_processflow_wait polls elapsed timeout_s fuel).2 =
        k + 1 ∧
      waitSleepCount (ocr4all_processflow_wait polls elapsed timeout_s fuel).2 =
        k) ∧
    logsOnChange none
      (ocr4all_processflow_wait polls elapsed timeout_s fuel).2 = true := by
  refine ⟨?_, ?_, waitGo_logsOnChange polls elapsed timeout_s fuel 0 none⟩
  · intro hbusy hidle helaps hfuel
    exact waitGo_done_aux polls elapsed timeout_s k 0 none fuel
      (by intro j hj; simpa using hbusy j hj) (by simpa using hidle)
      (by intro j hj; simpa using helaps j hj) hfuel
  · intro hbusy helaps hexc hfuel
    exact waitGo_timeout_aux polls elapsed timeout_s k 0 none fuel
      (by intro j hj; simpa using hbusy j hj)
      (by intro j hj; simpa using helaps j hj) (by simpa using hexc) hfuel

/-- Wait-loop behaviour: busy twice, then idle, with the budget already
exceeded when the idle poll arrives. -/
def pollsBusyTwice : Nat → String := fun i => if i < 2 then "step1" else ""

/-- Elapsed-time oracle exceeding the budget of 10 from check 2 on. -/
def elapsedLate : Nat → Nat := fun i => if i < 2 then i else 100

/-- Elapsed-time oracle growing by one per check. -/
def elapsedLinear : Nat → Nat := fun i => i

/-- Witness for C4: the busy-busy-idle run returns normally at the
third poll even though the budget of 10 is exceeded there (elapsed
100), with 3 polls and 2 sleeps; the always-busy run against a budget
of 1 raises `TimeoutError` at the third poll; and the first run logs on
its two status changes only. -/
theorem C4_wait_idle_or_timeout_witness :
    ((ocr4all_processflow_wait pollsBusyTwice elapsedLate 10 5).1 =
      some WaitOutcome.done ∧
    waitPollCount (ocr4all_processflow_wait pollsBusyTwice elapsedLate 10 5).2 =
      3 ∧
    waitSleepCount (ocr4all_processflow_wait pollsBusyTwice elapsedLate 10 5).2 =
      2) ∧
    ((ocr4all_processflow_wait pollsAlwaysBusy elapsedLinear 1 5).1 =
      some WaitOutcome.timeout ∧
    waitPollCount (ocr4all_processflow_wait pollsAlwaysBusy elapsedLinear 1 5).2 =
      3 ∧
    waitSleepCount (ocr4all_processflow_wait pollsAlwaysBusy elapsedLinear 1 5).2 =
      2) ∧
    logsOnChange none
      (ocr4all_processflow_wait pollsBusyTwice elapsedLate 10 5).2 = true := by
  refine ⟨?_, ?_, (C4_wait_idle_or_timeout pollsBusyTwice elapsedLate 10 2 5).2.2⟩
  · exact (C4_wait_idle_or_timeout pollsBusyTwice elapsedLate 10 2 5).1
      (by decide) (by decide) (by decide) (by omega)
  · exact (C4_wait_idle_or_timeout pollsAlwaysBusy elapsedLinear 1 2 5).2.1
      (by intro j hj; simp [pollsAlwaysBusy]) (by decide) (by decide) (by omega)

end Ocr4all
